import Mathlib

/-!
Shallow embedding of `src/core/lib/event_engine/posix_engine/posix_engine_listener_utils.cc`
(gRPC POSIX listener bring-up utilities) and proofs about its claims.

System calls and the external socket-option helpers (`SetSocketReusePort`,
`bind`, `listen`, `getsockname`, `getifaddrs`, `CreateDualStackSocket`, ...)
are modelled as oracles: environment structures record the outcome each call
would produce, and the embedded functions consume those outcomes in exactly
the order and under exactly the conditions of the C++ source.  `CHECK`
failures (which abort the process in the source) are modelled as a distinct
`crash` outcome.  Machine integers appear only as ports and byte values and
are modelled as `Nat`; file descriptors are `Int` (negative means invalid).
-/

set_option autoImplicit false
set_option maxRecDepth 8192

namespace GrpcListenerUtils

/-- Model of `absl::Status` in its error form: a numeric status code together
with the error message.  Code 9 is `absl::StatusCode::kFailedPrecondition`,
the only code this source file constructs itself. -/
structure AbslStatus where
  code : Nat
  message : String
deriving DecidableEq

/-- `absl::FailedPreconditionError(msg)`. -/
def FailedPreconditionError (msg : String) : AbslStatus :=
  { code := 9, message := msg }

/-- `PosixSocketWrapper::DSMode`: how a socket created by the dual-stack
factory turned out. -/
inductive DSMode where
  | DSMODE_NONE
  | DSMODE_IPV4
  | DSMODE_IPV6
  | DSMODE_DUALSTACK
deriving DecidableEq

/-- Model of `EventEngine::ResolvedAddress`: a native socket address tagged
by family.  `v4` carries the 4 bytes of `sin_addr` (network order) and the
port; `v6` carries the 16 bytes of `sin6_addr` and the port.  Equality is
byte-content equality, as in the source container lookups. -/
inductive ResolvedAddress where
  | v4 (addr : List Nat) (port : Nat)
  | v6 (addr : List Nat) (port : Nat)
  | unixAddr (path : List Nat)
  | vsockAddr (cid : Nat) (port : Nat)
  | other (family : Nat)
deriving DecidableEq

/-- `ResolvedAddressGetPort`. -/
def ResolvedAddressGetPort : ResolvedAddress → Nat
  | .v4 _ p => p
  | .v6 _ p => p
  | .vsockAddr _ p => p
  | _ => 0

/-- `ResolvedAddressSetPort` (only IPv4/IPv6 addresses carry a settable
port in the code paths of this file). -/
def ResolvedAddressSetPort : ResolvedAddress → Nat → ResolvedAddress
  | .v4 b _, p => .v4 b p
  | .v6 b _, p => .v6 b p
  | a, _ => a

/-- Whether the address family is `AF_UNIX`. -/
def IsAfUnix : ResolvedAddress → Bool
  | .unixAddr _ => true
  | _ => false

/-- `ResolvedAddressIsVSock`. -/
def ResolvedAddressIsVSock : ResolvedAddress → Bool
  | .vsockAddr _ _ => true
  | _ => false

/-- `ResolvedAddressMakeWild4(port)`: `0.0.0.0` with the given port. -/
def ResolvedAddressMakeWild4 (port : Nat) : ResolvedAddress :=
  .v4 (List.replicate 4 0) port

/-- `ResolvedAddressMakeWild6(port)`: `::` with the given port. -/
def ResolvedAddressMakeWild6 (port : Nat) : ResolvedAddress :=
  .v6 (List.replicate 16 0) port

/-- Modelled from the spec: the external helper
`ResolvedAddressIsV4Mapped(addr, &addr4_copy)` (declared in
`tcp_socket_utils.h`, not part of this source file).  An IPv6 address is
v4-mapped when its first 12 bytes are `::ffff:`; the out-parameter receives
the plain-IPv4 form with the same port.  Returns `some addr4_copy` in that
case and `none` otherwise. -/
def ResolvedAddressIsV4Mapped : ResolvedAddress → Option ResolvedAddress
  | .v6 b p =>
      if b.length = 16 ∧ b.take 12 = [0, 0, 0, 0, 0, 0, 0, 0, 0, 0, 0xff, 0xff] then
        some (.v4 (b.drop 12) p)
      else
        none
  | _ => none

/-- Modelled from the spec: the external stringifier
`ResolvedAddressToString` (out of scope for the core, used only to embed a
human-readable address in error messages).  Any fixed rendering works for
the claims; this one is injective on the families used here. -/
def ResolvedAddressToString : ResolvedAddress → String
  | .v4 b p => "ipv4:" ++ String.intercalate "." (b.map Nat.repr) ++ ":" ++ Nat.repr p
  | .v6 b p => "ipv6:" ++ String.intercalate ":" (b.map Nat.repr) ++ ":" ++ Nat.repr p
  | .unixAddr b => "unix:" ++ String.intercalate "." (b.map Nat.repr)
  | .vsockAddr c p => "vsock:" ++ Nat.repr c ++ ":" ++ Nat.repr p
  | .other f => "other:" ++ Nat.repr f

/-- `static const uint8_t kV4LinkLocalPrefix[] = {0xa9, 0xfe}` (169.254). -/
def v4LinkLocalBytes : List Nat := [0xa9, 0xfe]

/-- `static const uint8_t kV6LinkLocalPrefix[] = {0xfe, 0x80}`. -/
def v6LinkLocalBytes : List Nat := [0xfe, 0x80]

/-- `(~uint32_t(0)) << 22` truncated to 32 bits, the mask the source applies
(after `htonl`) to the first 32-bit word of an IPv6 address. -/
def v6LinkLocalMask : Nat := ((2 ^ 32 - 1) <<< 22) % 2 ^ 32

/-- Big-endian byte decomposition of a 32-bit value: the in-memory bytes of
`htonl(n)` on any host. -/
def natToBytesBE4 (n : Nat) : List Nat :=
  [n / 2 ^ 24 % 256, n / 2 ^ 16 % 256, n / 2 ^ 8 % 256, n % 256]

/-- `IsSockAddrLinkLocal`.  For `AF_INET`: `memcmp` of the first two bytes of
`sin_addr` against `kV4LinkLocalPrefix`.  For `AF_INET6`: the first 32-bit
word of `sin6_addr` is masked with `htonl((~0u) << 22)` and its first two
in-memory bytes are compared against `kV6LinkLocalPrefix`.  Working on the
in-memory byte sequences makes the model independent of host endianness,
exactly as the source combination of `memcpy`/`htonl`/`memcmp` is. -/
def IsSockAddrLinkLocal (resolved_addr : ResolvedAddress) : Bool :=
  match resolved_addr with
  | .v4 b _ => b.take 2 == v4LinkLocalBytes
  | .v6 b _ =>
      (List.zipWith (fun x m => x &&& m) (b.take 4) (natToBytesBE4 v6LinkLocalMask)).take 2
        == v6LinkLocalBytes
  | _ => false

/-- `ListenerSocketsContainer::ListenerSocket`.  The `sock` wrapper is
represented by its file descriptor. -/
structure ListenerSocket where
  fd : Int
  addr : ResolvedAddress
  dsmode : DSMode
  zero_copy_enabled : Bool
  port : Nat
deriving DecidableEq

/-- `PosixTcpOptions`, restricted to the fields this source file reads. -/
structure PosixTcpOptions where
  allow_reuse_port : Bool
  expand_wildcard_addrs : Bool
  exclude_link_local_addresses : Bool
  dscp : Nat
deriving DecidableEq

/-- Outcome of an embedded operation: a value, a typed error, or a process
abort (`CHECK` failure / `grpc_core::Crash`). -/
inductive Outcome (α : Type) where
  | ok (a : α)
  | err (e : AbslStatus)
  | crash
deriving DecidableEq

/-- Oracle environment for one `PrepareSocket` invocation: the outcome every
external socket-option/syscall helper would produce, in source order.
`reuse_port_supported` is `PosixSocketWrapper::IsSocketReusePortSupported()`;
`linux_errqueue` records whether `GRPC_LINUX_ERRQUEUE` is compiled in;
`set_zero_copy_ok` is `SetSocketZeroCopy().ok()`.  The `bind`, `listen` and
`getsockname` oracles carry the `strerror(errno)` text on failure, and
`getsockname` yields the local address the kernel reports on success. -/
structure PrepEnv where
  reuse_port_supported : Bool
  linux_errqueue : Bool
  set_reuse_port : Except AbslStatus Unit
  set_zero_copy_ok : Bool
  set_nonblocking : Except AbslStatus Unit
  set_cloexec : Except AbslStatus Unit
  set_low_latency : Except AbslStatus Unit
  set_reuse_addr : Except AbslStatus Unit
  set_dscp : Except AbslStatus Unit
  set_no_sigpipe : Except AbslStatus Unit
  apply_mutator : Except AbslStatus Unit
  bind_res : Except String Unit
  listen_res : Except String Unit
  getsockname_res : Except String ResolvedAddress

/-- `PrepareSocket(options, socket)` (lines 133-205).  Returns the outcome
together with a flag telling whether the `absl::MakeCleanup` guard closed the
file descriptor on exit (`close_fd` is still true exactly on the early-error
returns; it is set to false right before the success return).  `CHECK_GE(fd,
0)` aborts the process, modelled as `(.crash, false)` (the cleanup guard is
installed only after the check).  The conditional option blocks mirror the
source: reuse-port only when supported, requested, and the address is neither
`AF_UNIX` nor vsock; zero-copy is best-effort under `GRPC_LINUX_ERRQUEUE`;
low-latency/reuse-addr/DSCP only for non-unix non-vsock addresses. -/
def PrepareSocket (env : PrepEnv) (options : PosixTcpOptions) (socket0 : ListenerSocket) :
    Outcome ListenerSocket × Bool :=
  if socket0.fd < 0 then (.crash, false) else
  let s := { socket0 with zero_copy_enabled := false, port := 0 }
  match
    (if env.reuse_port_supported && options.allow_reuse_port
        && !IsAfUnix s.addr && !ResolvedAddressIsVSock s.addr
     then env.set_reuse_port else .ok ()) with
  | .error e => (.err e, true)
  | .ok _ =>
  let s := if env.linux_errqueue && env.set_zero_copy_ok
           then { s with zero_copy_enabled := true } else s
  match env.set_nonblocking with
  | .error e => (.err e, true)
  | .ok _ =>
  match env.set_cloexec with
  | .error e => (.err e, true)
  | .ok _ =>
  match
    (if !IsAfUnix s.addr && !ResolvedAddressIsVSock s.addr then
       match env.set_low_latency with
       | .error e => .error e
       | .ok _ =>
         match env.set_reuse_addr with
         | .error e => .error e
         | .ok _ => env.set_dscp
     else Except.ok ()) with
  | .error e => (.err e, true)
  | .ok _ =>
  match env.set_no_sigpipe with
  | .error e => (.err e, true)
  | .ok _ =>
  match env.apply_mutator with
  | .error e => (.err e, true)
  | .ok _ =>
  match env.bind_res with
  | .error m =>
      (.err (FailedPreconditionError
        ("Error in bind for address \x27" ++ ResolvedAddressToString s.addr
          ++ "\x27: " ++ m)), true)
  | .ok _ =>
  match env.listen_res with
  | .error m => (.err (FailedPreconditionError ("Error in listen: " ++ m)), true)
  | .ok _ =>
  match env.getsockname_res with
  | .error m => (.err (FailedPreconditionError ("Error in getsockname: " ++ m)), true)
  | .ok sockname_temp =>
      (.ok { s with port := ResolvedAddressGetPort sockname_temp }, false)

/-- Oracle environment for one `CreateAndPrepareListenerSocket` invocation:
the result of `PosixSocketWrapper::CreateDualStackSocket` (a file descriptor
together with the reported `DSMode`) plus the `PrepareSocket` oracles. -/
structure BinderEnv where
  create_dual_stack : Except AbslStatus (Int × DSMode)
  prep : PrepEnv

/-- The tail of `CreateAndPrepareListenerSocket` once the socket record is
assembled: run `PrepareSocket` (propagating its error) and pass the success
through `CHECK_GT(socket.port, 0)` (line 226), which aborts — modelled as
`.crash` — when the port is not positive. -/
def PrepareSocketChecked (penv : PrepEnv) (options : PosixTcpOptions)
    (socket0 : ListenerSocket) : Outcome ListenerSocket :=
  match PrepareSocket penv options socket0 with
  | (.crash, _) => .crash
  | (.err e, _) => .err e
  | (.ok s, _) => if 0 < s.port then .ok s else .crash

/-- `CreateAndPrepareListenerSocket(options, addr)` (lines 209-228).  On
factory success the stored address is rewritten to the plain-IPv4 form when
the factory reports `DSMODE_IPV4` and the given address is v4-mapped; then
`PrepareSocket` runs, and `CHECK_GT(socket.port, 0)` (modelled as `.crash`
when violated) guards the success return. -/
def CreateAndPrepareListenerSocket (env : BinderEnv) (options : PosixTcpOptions)
    (addr : ResolvedAddress) : Outcome ListenerSocket :=
  match env.create_dual_stack with
  | .error st => .err st
  | .ok (fd, dsmode) =>
    let saddr :=
      match dsmode, ResolvedAddressIsV4Mapped addr with
      | DSMode.DSMODE_IPV4, some addr4_copy => addr4_copy
      | _, _ => addr
    PrepareSocketChecked env.prep options
      { fd := fd, addr := saddr, dsmode := dsmode,
        zero_copy_enabled := false, port := 0 }

/-- Oracle environment for one `GetUnusedPort` invocation. -/
structure PortEnv where
  create_dual_stack : Except AbslStatus (Int × DSMode)
  bind_res : Except String Unit
  getsockname_res : Except String ResolvedAddress

/-- `GetUnusedPort()` (lines 63-90): create a throwaway dual-stack socket on
the wildcard, bind it, read the assigned address back, close, and return the
port; `port <= 0` after all that is the "Bad port" failure.  The choice
between the IPv6 and IPv4 wildcard only changes the address handed to the
`bind` oracle, so it has no observable effect in the model. -/
def GetUnusedPort (env : PortEnv) : Except AbslStatus Nat :=
  match env.create_dual_stack with
  | .error st => .error st
  | .ok _ =>
    match env.bind_res with
    | .error m => .error (FailedPreconditionError ("bind(GetUnusedPort): " ++ m))
    | .ok _ =>
      match env.getsockname_res with
      | .error m => .error (FailedPreconditionError ("getsockname(GetUnusedPort): " ++ m))
      | .ok wild =>
        let port := ResolvedAddressGetPort wild
        if port = 0 then .error (FailedPreconditionError "Bad port") else .ok port

/-- Modelled from the spec: `ListenerSocketsContainer::Find(addr).ok()`.
The container interface (declared elsewhere) looks an address up by byte
content equality; this returns whether an entry with that exact resolved
address is present. -/
def ContainerFind (sockets : List ListenerSocket) (addr : ResolvedAddress) : Bool :=
  sockets.any (fun s => s.addr == addr)

/-- Whether some two entries of a container have byte-identical resolved
addresses (the negation of spec invariant I2). -/
def HasDupAddrs : List ListenerSocket → Bool
  | [] => false
  | s :: rest => ContainerFind rest s.addr || HasDupAddrs rest

/-- One `struct ifaddrs` entry, restricted to the fields the source reads.
`ifa_addr` is nullable. -/
structure IfAddr where
  ifa_name : Option String
  ifa_addr : Option ResolvedAddress
  ifa_flags : Nat
deriving DecidableEq

/-- The family filter of the enumeration loop (lines 288-297): `AF_INET`
entries are skipped when the one-time IPv4 probe failed, `AF_INET6` entries
are kept, every other family is skipped. -/
def SkipFamily (ipv4_available : Bool) : ResolvedAddress → Bool
  | .v4 _ _ => !ipv4_available
  | .v6 _ _ => false
  | _ => true

/-- Result of the enumeration loop: the container contents, the last
assigned port, the `no_local_addresses` flag, the `op_status` error (if the
loop broke on a bind failure) and the trace of addresses actually handed to
`CreateAndPrepareListenerSocket`. -/
inductive LoopOut where
  | crash
  | done (sockets : List ListenerSocket) (assigned : Nat) (no_local : Bool)
      (op_error : Option AbslStatus) (trace : List ResolvedAddress)
deriving DecidableEq

/-- The `for (ifa_it = ...)` loop of `ListenerContainerAddAllLocalAddresses`
(lines 282-326), with the mutable locals (`listener_sockets`,
`assigned_port`, `no_local_addresses`) threaded explicitly and a trace of
the addresses passed to the single-address binder.  `cap` is the
`CreateAndPrepareListenerSocket` capability (one oracle outcome per
address). -/
def AddAllLocalLoop (cap : PosixTcpOptions → ResolvedAddress → Outcome ListenerSocket)
    (ipv4_available : Bool) (options : PosixTcpOptions) (requested_port : Nat) :
    List IfAddr → List ListenerSocket → Nat → Bool → List ResolvedAddress → LoopOut
  | [], sockets, assigned, no_local, trace => .done sockets assigned no_local none trace
  | it :: rest, sockets, assigned, no_local, trace =>
    match it.ifa_addr with
    | none => AddAllLocalLoop cap ipv4_available options requested_port rest
        sockets assigned no_local trace
    | some raw =>
      if SkipFamily ipv4_available raw then
        AddAllLocalLoop cap ipv4_available options requested_port rest
          sockets assigned no_local trace
      else
        let addr := ResolvedAddressSetPort raw requested_port
        if options.exclude_link_local_addresses && IsSockAddrLinkLocal addr then
          AddAllLocalLoop cap ipv4_available options requested_port rest
            sockets assigned no_local trace
        else if ContainerFind sockets addr then
          AddAllLocalLoop cap ipv4_available options requested_port rest
            sockets assigned no_local trace
        else
          match cap options addr with
          | .crash => .crash
          | .err st =>
              .done sockets assigned no_local
                (some (FailedPreconditionError
                  ("Failed to add listener: " ++ ResolvedAddressToString addr
                    ++ " due to error: " ++ st.message)))
                (trace ++ [addr])
          | .ok s =>
              AddAllLocalLoop cap ipv4_available options requested_port rest
                (sockets ++ [s]) s.port false (trace ++ [addr])

/-- Oracle environment for the container-level operations.  `has_ifaddrs`
models the `GRPC_HAVE_IFADDRS` capability (it drives both
`SystemHasIfAddrs()` and the availability of the enumeration body);
`getifaddrs_res` is the interface list or the `strerror(errno)` text;
`ipv4_available` is the cached one-time IPv4 probe; `cap` is the
single-address binder capability. -/
structure EnumEnv where
  has_ifaddrs : Bool
  cap : PosixTcpOptions → ResolvedAddress → Outcome ListenerSocket
  port_env : PortEnv
  getifaddrs_res : Except String (List IfAddr)
  ipv4_available : Bool

/-- Result of a container-level operation: the final container contents, the
`absl::StatusOr<int>` result, and the trace of addresses handed to the
single-address binder. -/
inductive EnumOut where
  | crash
  | out (sockets : List ListenerSocket) (result : Except AbslStatus Nat)
      (trace : List ResolvedAddress)

/-- `ListenerContainerAddAllLocalAddresses` (lines 256-340).  Without
`GRPC_HAVE_IFADDRS` the body is `grpc_core::Crash`.  Otherwise: a requested
port of 0 is replaced by `GetUnusedPort()` (whose failure propagates), a
`getifaddrs` failure propagates, then the loop runs; after it, a recorded
`op_status` error propagates, an empty bind count yields the "No local
addresses" failure, and otherwise the assigned port is returned. -/
def ListenerContainerAddAllLocalAddresses (env : EnumEnv)
    (listener_sockets : List ListenerSocket) (options : PosixTcpOptions)
    (requested_port : Nat) : EnumOut :=
  if env.has_ifaddrs = false then .crash
  else
    match (if requested_port = 0 then GetUnusedPort env.port_env else .ok requested_port) with
    | .error st => .out listener_sockets (.error st) []
    | .ok port =>
      match env.getifaddrs_res with
      | .error m =>
          .out listener_sockets (.error (FailedPreconditionError ("getifaddrs: " ++ m))) []
      | .ok entries =>
        match AddAllLocalLoop env.cap env.ipv4_available options port entries
            listener_sockets 0 true [] with
        | .crash => .crash
        | .done sockets _assigned _no_local (some e) trace => .out sockets (.error e) trace
        | .done sockets assigned no_local none trace =>
          if no_local then
            .out sockets (.error (FailedPreconditionError "No local addresses")) trace
          else
            .out sockets (.ok assigned) trace

/-- The fallback branch of `ListenerContainerAddWildcardAddresses` (lines
356-392): try the IPv6 wildcard first; on success append it, and if its mode
is dual-stack or IPv4 return its port at once; otherwise try the IPv4
wildcard (at the IPv6 socket's port, or at the original port when the IPv6
bind failed).  `assigned_port > 0` decides success; in the failure branch
`CHECK(!v6_sock.ok())` / `CHECK(!v4_sock.ok())` abort when a bind succeeded
yet left `assigned_port` at 0, modelled as `.crash`. -/
def WildcardFallback (cap : PosixTcpOptions → ResolvedAddress → Outcome ListenerSocket)
    (listener_sockets : List ListenerSocket) (options : PosixTcpOptions)
    (requested_port : Nat) : EnumOut :=
  let wild6 := ResolvedAddressMakeWild6 requested_port
  match cap options wild6 with
  | .crash => .crash
  | .err e6 =>
    let wild4 := ResolvedAddressMakeWild4 requested_port
    match cap options wild4 with
    | .crash => .crash
    | .err e4 =>
        .out listener_sockets
          (.error (FailedPreconditionError
            ("Failed to add any wildcard listeners: " ++ e6.message ++ e4.message)))
          [wild6, wild4]
    | .ok s4 =>
        if 0 < s4.port then
          .out (listener_sockets ++ [s4]) (.ok s4.port) [wild6, wild4]
        else .crash
  | .ok s6 =>
    let sockets1 := listener_sockets ++ [s6]
    if s6.dsmode = DSMode.DSMODE_DUALSTACK || s6.dsmode = DSMode.DSMODE_IPV4 then
      .out sockets1 (.ok s6.port) [wild6]
    else
      let wild4 := ResolvedAddressMakeWild4 s6.port
      match cap options wild4 with
      | .crash => .crash
      | .err _ =>
          if 0 < s6.port then .out sockets1 (.ok s6.port) [wild6, wild4] else .crash
      | .ok s4 =>
          if 0 < s4.port then
            .out (sockets1 ++ [s4]) (.ok s4.port) [wild6, wild4]
          else .crash

/-- `ListenerContainerAddWildcardAddresses` (lines 342-393): delegate to the
multi-interface enumerator when `SystemHasIfAddrs()` holds and the options
request wildcard expansion, otherwise run the two-step fallback. -/
def ListenerContainerAddWildcardAddresses (env : EnumEnv)
    (listener_sockets : List ListenerSocket) (options : PosixTcpOptions)
    (requested_port : Nat) : EnumOut :=
  if env.has_ifaddrs && options.expand_wildcard_addrs then
    ListenerContainerAddAllLocalAddresses env listener_sockets options requested_port
  else
    WildcardFallback env.cap listener_sockets options requested_port

/-- An interface entry the enumeration loop skips without touching the
container: null address, filtered family, excluded link-local address, or an
address already present in the container. -/
def SkippedEntry (sockets : List ListenerSocket) (ipv4_available : Bool)
    (options : PosixTcpOptions) (requested_port : Nat) (it : IfAddr) : Bool :=
  match it.ifa_addr with
  | none => true
  | some raw =>
      SkipFamily ipv4_available raw
        || (options.exclude_link_local_addresses
              && IsSockAddrLinkLocal (ResolvedAddressSetPort raw requested_port))
        || ContainerFind sockets (ResolvedAddressSetPort raw requested_port)

lemma prepare_socket_spec (env : PrepEnv) (options : PosixTcpOptions)
    (socket0 : ListenerSocket) (r : Outcome ListenerSocket) (closed : Bool)
    (hfd : ¬ socket0.fd < 0) (hrun : PrepareSocket env options socket0 = (r, closed)) :
    (∃ e, r = .err e ∧ closed = true)
    ∨ (∃ s a, r = .ok s ∧ closed = false ∧ env.getsockname_res = .ok a
        ∧ s.port = ResolvedAddressGetPort a) := by
  simp only [PrepareSocket, hfd, if_false] at hrun
  repeat' split at hrun
  all_goals cases hrun
  all_goals simp_all

/-- C5: `PrepareSocket` closes the socket handle before returning on every
one of its failure paths, and leaves the handle open exactly when it returns
success (the outcome is always a typed error with the handle closed, or
success with the handle still open). -/
theorem c5_prepare_socket_closes_on_failure (env : PrepEnv) (options : PosixTcpOptions)
    (socket0 : ListenerSocket) (r : Outcome ListenerSocket) (closed : Bool)
    (hfd : ¬ socket0.fd < 0) (hrun : PrepareSocket env options socket0 = (r, closed)) :
    (∀ e, r = .err e → closed = true) ∧ (∀ s, r = .ok s → closed = false)
    ∧ ((∃ e, r = .err e) ∨ ∃ s, r = .ok s) := by
  rcases prepare_socket_spec env options socket0 r closed hfd hrun with
    ⟨e, rfl, rfl⟩ | ⟨s, a, rfl, rfl, _, _⟩ <;> simp

/-- An all-success oracle environment for `PrepareSocket`, used to evaluate
theorems on concrete inputs. -/
def prepEnvOk : PrepEnv :=
  { reuse_port_supported := true
    linux_errqueue := true
    set_reuse_port := .ok ()
    set_zero_copy_ok := true
    set_nonblocking := .ok ()
    set_cloexec := .ok ()
    set_low_latency := .ok ()
    set_reuse_addr := .ok ()
    set_dscp := .ok ()
    set_no_sigpipe := .ok ()
    apply_mutator := .ok ()
    bind_res := .ok ()
    listen_res := .ok ()
    getsockname_res := .ok (.v4 [127, 0, 0, 1] 8080) }

/-- A default options value for concrete evaluations. -/
def optsDefault : PosixTcpOptions :=
  { allow_reuse_port := true
    expand_wildcard_addrs := false
    exclude_link_local_addresses := false
    dscp := 0 }

/-- A freshly created, not yet prepared socket for concrete evaluations. -/
def sock0W : ListenerSocket :=
  { fd := 3, addr := .v4 [127, 0, 0, 1] 8080, dsmode := .DSMODE_IPV4,
    zero_copy_enabled := false, port := 0 }

/-- `prepEnvOk` with a failing `bind`. -/
def prepEnvBindFail : PrepEnv := { prepEnvOk with bind_res := .error "EADDRINUSE" }

/-- The status `PrepareSocket` produces for the failing bind of
`prepEnvBindFail` on `sock0W`. -/
def bindErrSt : AbslStatus :=
  FailedPreconditionError
    "Error in bind for address \x27ipv4:127.0.0.1:8080\x27: EADDRINUSE"

theorem c5_prepare_socket_closes_on_failure_witness :
    PrepareSocket prepEnvBindFail optsDefault sock0W = (.err bindErrSt, true)
    ∧ (true : Bool) = true :=
  ⟨rfl, (c5_prepare_socket_closes_on_failure prepEnvBindFail optsDefault sock0W
    (.err bindErrSt) true (by decide) rfl).1 bindErrSt rfl⟩

/-- `prepEnvOk` with `SetSocketNoSigpipeIfPossible` failing. -/
def prepEnvSigpipeFail : PrepEnv :=
  { prepEnvOk with
    set_no_sigpipe := .error { code := 13, message := "setsockopt(SO_NOSIGPIPE) failed" } }

/-- C6 counterexample: contrary to the claim that a no-sigpipe failure is not
propagated, `PrepareSocket` (line 171 wraps the call in
`GRPC_RETURN_IF_ERROR`) returns exactly that failure: with every other
oracle succeeding and `SetSocketNoSigpipeIfPossible` failing, the function
propagates the error (and closes the handle). -/
theorem c6_no_sigpipe_counterexample :
    prepEnvSigpipeFail.set_no_sigpipe
        = .error { code := 13, message := "setsockopt(SO_NOSIGPIPE) failed" }
    ∧ PrepareSocket prepEnvSigpipeFail optsDefault sock0W
        = (.err { code := 13, message := "setsockopt(SO_NOSIGPIPE) failed" }, true) :=
  ⟨rfl, rfl⟩

/-- C6 (amended): a failure of `SetSocketNoSigpipeIfPossible` IS propagated
as an error from `PrepareSocket` (closing the handle); the best-effort
aspect lives inside that helper, which succeeds trivially on platforms
without the option.  Whenever every step before the no-sigpipe application
succeeds and that application fails, `PrepareSocket` returns precisely the
no-sigpipe error. -/
theorem c6_no_sigpipe_failure_propagates (env : PrepEnv) (options : PosixTcpOptions)
    (socket0 : ListenerSocket) (e : AbslStatus) (hfd : ¬ socket0.fd < 0)
    (h1 : env.set_reuse_port = .ok ()) (h2 : env.set_nonblocking = .ok ())
    (h3 : env.set_cloexec = .ok ()) (h4 : env.set_low_latency = .ok ())
    (h5 : env.set_reuse_addr = .ok ()) (h6 : env.set_dscp = .ok ())
    (h7 : env.set_no_sigpipe = .error e) :
    PrepareSocket env options socket0 = (.err e, true) := by
  simp only [PrepareSocket, hfd, if_false, h1, h2, h3, h4, h5, h6, h7]
  repeat' split
  all_goals simp_all

/-- `prepEnvOk` with a differently labelled no-sigpipe failure, for the C6
witness. -/
def prepEnvSigpipeFail2 : PrepEnv :=
  { prepEnvOk with set_no_sigpipe := .error { code := 13, message := "sigpipe: EINVAL" } }

theorem c6_no_sigpipe_failure_propagates_witness :
    PrepareSocket prepEnvSigpipeFail2 optsDefault sock0W
      = (.err { code := 13, message := "sigpipe: EINVAL" }, true) :=
  c6_no_sigpipe_failure_propagates prepEnvSigpipeFail2 optsDefault sock0W
    { code := 13, message := "sigpipe: EINVAL" } (by decide) rfl rfl rfl rfl rfl rfl rfl

lemma prepare_checked_spec (penv : PrepEnv) (options : PosixTcpOptions)
    (socket0 : ListenerSocket) {q : Nat} (hfd : ¬ socket0.fd < 0)
    (hsn : ∀ a, penv.getsockname_res = .ok a → 0 < ResolvedAddressGetPort a)
    (hmatch : q ≠ 0 → ∀ a, penv.getsockname_res = .ok a → ResolvedAddressGetPort a = q) :
    PrepareSocketChecked penv options socket0 ≠ .crash
    ∧ ∀ s, PrepareSocketChecked penv options socket0 = .ok s →
        0 < s.port ∧ (q ≠ 0 → s.port = q) := by
  rcases hp : PrepareSocket penv options socket0 with ⟨r, closed⟩
  rcases prepare_socket_spec penv options socket0 r closed hfd hp with
    ⟨e, rfl, rfl⟩ | ⟨s, a, rfl, rfl, hg, hport⟩
  · simp [PrepareSocketChecked, hp]
  · have hpos : 0 < s.port := by rw [hport]; exact hsn a hg
    simp only [PrepareSocketChecked, hp, hpos, if_true]
    refine ⟨by simp, ?_⟩
    rintro t ht
    cases ht
    exact ⟨hpos, fun hne => hport.trans (hmatch hne a hg)⟩

/-- C1: for every options value and every address, under a well-behaved OS
(the factory hands out a valid descriptor, `getsockname` reports a positive
port, and — for a non-zero requested port — reports that very port),
`CreateAndPrepareListenerSocket` never aborts, and every socket it returns
has a strictly positive port that equals the requested port whenever the
requested port was non-zero; in particular it never returns a socket whose
port is 0 (every other outcome is a typed error). -/
theorem c1_create_and_prepare_port (env : BinderEnv) (options : PosixTcpOptions)
    (addr : ResolvedAddress)
    (hfd : ∀ p, env.create_dual_stack = .ok p → ¬ p.1 < 0)
    (hsn : ∀ a, env.prep.getsockname_res = .ok a → 0 < ResolvedAddressGetPort a)
    (hmatch : ResolvedAddressGetPort addr ≠ 0 →
      ∀ a, env.prep.getsockname_res = .ok a →
        ResolvedAddressGetPort a = ResolvedAddressGetPort addr) :
    CreateAndPrepareListenerSocket env options addr ≠ .crash
    ∧ ∀ s, CreateAndPrepareListenerSocket env options addr = .ok s →
        0 < s.port
        ∧ (ResolvedAddressGetPort addr ≠ 0 → s.port = ResolvedAddressGetPort addr) := by
  cases hc : env.create_dual_stack with
  | error st => simp [CreateAndPrepareListenerSocket, hc]
  | ok p =>
    obtain ⟨fd, ds⟩ := p
    have hfd' : ¬ fd < 0 := hfd (fd, ds) hc
    simp only [CreateAndPrepareListenerSocket, hc]
    exact prepare_checked_spec env.prep options _ hfd' hsn
      (fun hne a ha => hmatch hne a ha)

/-- A binder environment whose factory yields descriptor 3 in IPv6-only mode
and whose preparation oracles all succeed. -/
def binderEnvOk : BinderEnv :=
  { create_dual_stack := .ok (3, .DSMODE_IPV6), prep := prepEnvOk }

/-- The socket `CreateAndPrepareListenerSocket` produces from `binderEnvOk`
on the IPv6 wildcard at port 8080. -/
def sockPrepared6W : ListenerSocket :=
  { fd := 3, addr := .v6 (List.replicate 16 0) 8080, dsmode := .DSMODE_IPV6,
    zero_copy_enabled := true, port := 8080 }

theorem c1_create_and_prepare_port_witness :
    CreateAndPrepareListenerSocket binderEnvOk optsDefault (ResolvedAddressMakeWild6 8080)
      = .ok sockPrepared6W
    ∧ 0 < sockPrepared6W.port ∧ sockPrepared6W.port = 8080 := by
  have h := (c1_create_and_prepare_port binderEnvOk optsDefault (ResolvedAddressMakeWild6 8080)
    (by intro p hp; cases (Except.ok.inj hp : ((3 : Int), DSMode.DSMODE_IPV6) = p); decide)
    (by intro a ha; cases (Except.ok.inj ha : ResolvedAddress.v4 [127, 0, 0, 1] 8080 = a); decide)
    (by
      intro _ a ha
      cases (Except.ok.inj ha : ResolvedAddress.v4 [127, 0, 0, 1] 8080 = a)
      decide)).2 sockPrepared6W (by decide)
  exact ⟨by decide, h.1, h.2 (by decide)⟩

lemma wildcard_fallback_path (env : EnumEnv) (sockets : List ListenerSocket)
    (options : PosixTcpOptions) (rp : Nat)
    (hpath : env.has_ifaddrs = false ∨ options.expand_wildcard_addrs = false) :
    ListenerContainerAddWildcardAddresses env sockets options rp
      = WildcardFallback env.cap sockets options rp := by
  rcases hpath with h | h <;> simp [ListenerContainerAddWildcardAddresses, h]

lemma wf_v6_ok_dual (cap : PosixTcpOptions → ResolvedAddress → Outcome ListenerSocket)
    (sockets : List ListenerSocket) (options : PosixTcpOptions) (rp : Nat)
    (s6 : ListenerSocket) (h6 : cap options (ResolvedAddressMakeWild6 rp) = .ok s6)
    (hds : s6.dsmode = DSMode.DSMODE_DUALSTACK ∨ s6.dsmode = DSMode.DSMODE_IPV4) :
    WildcardFallback cap sockets options rp
      = .out (sockets ++ [s6]) (.ok s6.port) [ResolvedAddressMakeWild6 rp] := by
  rcases hds with h | h <;> simp [WildcardFallback, h6, h]

lemma wf_v6_ok_only (cap : PosixTcpOptions → ResolvedAddress → Outcome ListenerSocket)
    (sockets : List ListenerSocket) (options : PosixTcpOptions) (rp : Nat)
    (s6 : ListenerSocket) (h6 : cap options (ResolvedAddressMakeWild6 rp) = .ok s6)
    (hd1 : s6.dsmode ≠ DSMode.DSMODE_DUALSTACK) (hd2 : s6.dsmode ≠ DSMode.DSMODE_IPV4) :
    WildcardFallback cap sockets options rp
      = (match cap options (ResolvedAddressMakeWild4 s6.port) with
         | .crash => .crash
         | .err _ =>
             if 0 < s6.port then
               .out (sockets ++ [s6]) (.ok s6.port)
                 [ResolvedAddressMakeWild6 rp, ResolvedAddressMakeWild4 s6.port]
             else .crash
         | .ok s4 =>
             if 0 < s4.port then
               .out (sockets ++ [s6] ++ [s4]) (.ok s4.port)
                 [ResolvedAddressMakeWild6 rp, ResolvedAddressMakeWild4 s6.port]
             else .crash) := by
  simp [WildcardFallback, h6, hd1, hd2]

lemma wf_v6_err (cap : PosixTcpOptions → ResolvedAddress → Outcome ListenerSocket)
    (sockets : List ListenerSocket) (options : PosixTcpOptions) (rp : Nat)
    (e6 : AbslStatus) (h6 : cap options (ResolvedAddressMakeWild6 rp) = .err e6) :
    WildcardFallback cap sockets options rp
      = (match cap options (ResolvedAddressMakeWild4 rp) with
         | .crash => .crash
         | .err e4 =>
             .out sockets
               (.error (FailedPreconditionError
                 ("Failed to add any wildcard listeners: " ++ e6.message ++ e4.message)))
               [ResolvedAddressMakeWild6 rp, ResolvedAddressMakeWild4 rp]
         | .ok s4 =>
             if 0 < s4.port then
               .out (sockets ++ [s4]) (.ok s4.port)
                 [ResolvedAddressMakeWild6 rp, ResolvedAddressMakeWild4 rp]
             else .crash) := by
  simp [WildcardFallback, h6]

/-- C2: in the wildcard fallback path (no interface enumeration, or
expansion not requested), `ListenerContainerAddWildcardAddresses` returns
success with an assigned port whenever the IPv6-wildcard bind succeeds, or
the IPv6-wildcard bind fails but the IPv4-wildcard bind (at the requested
port) succeeds; and it returns an error — whose message concatenates the two
individual error messages — exactly when both binds fail.  The capability
hypotheses record what the real single-address binder guarantees (C1): a
returned socket always has a positive port, and no call aborts. -/
theorem c2_wildcard_fallback_best_effort (env : EnumEnv) (sockets : List ListenerSocket)
    (options : PosixTcpOptions) (rp : Nat)
    (hpath : env.has_ifaddrs = false ∨ options.expand_wildcard_addrs = false)
    (hpos : ∀ o a s, env.cap o a = .ok s → 0 < s.port)
    (hnc : ∀ o a, env.cap o a ≠ .crash) :
    (∀ s6, env.cap options (ResolvedAddressMakeWild6 rp) = .ok s6 →
        ∃ socks p t, ListenerContainerAddWildcardAddresses env sockets options rp
          = .out socks (.ok p) t ∧ 0 < p)
    ∧ (∀ e6 s4, env.cap options (ResolvedAddressMakeWild6 rp) = .err e6 →
        env.cap options (ResolvedAddressMakeWild4 rp) = .ok s4 →
        ListenerContainerAddWildcardAddresses env sockets options rp
          = .out (sockets ++ [s4]) (.ok s4.port)
              [ResolvedAddressMakeWild6 rp, ResolvedAddressMakeWild4 rp])
    ∧ (∀ e6 e4, env.cap options (ResolvedAddressMakeWild6 rp) = .err e6 →
        env.cap options (ResolvedAddressMakeWild4 rp) = .err e4 →
        ListenerContainerAddWildcardAddresses env sockets options rp
          = .out sockets
              (.error (FailedPreconditionError
                ("Failed to add any wildcard listeners: " ++ e6.message ++ e4.message)))
              [ResolvedAddressMakeWild6 rp, ResolvedAddressMakeWild4 rp])
    ∧ (∀ socks e t, ListenerContainerAddWildcardAddresses env sockets options rp
          = .out socks (.error e) t →
        ∃ e6 e4, env.cap options (ResolvedAddressMakeWild6 rp) = .err e6
          ∧ env.cap options (ResolvedAddressMakeWild4 rp) = .err e4) := by
  rw [wildcard_fallback_path env sockets options rp hpath]
  refine ⟨?_, ?_, ?_, ?_⟩
  · intro s6 h6
    cases hds : s6.dsmode with
    | DSMODE_DUALSTACK =>
      rw [wf_v6_ok_dual env.cap sockets options rp s6 h6 (Or.inl hds)]
      exact ⟨_, _, _, rfl, hpos _ _ _ h6⟩
    | DSMODE_IPV4 =>
      rw [wf_v6_ok_dual env.cap sockets options rp s6 h6 (Or.inr hds)]
      exact ⟨_, _, _, rfl, hpos _ _ _ h6⟩
    | DSMODE_NONE =>
      rw [wf_v6_ok_only env.cap sockets options rp s6 h6 (by simp [hds]) (by simp [hds])]
      cases h4 : env.cap options (ResolvedAddressMakeWild4 s6.port) with
      | crash => exact absurd h4 (hnc _ _)
      | err e4 => simp only [hpos _ _ _ h6, if_true]; exact ⟨_, _, _, rfl, hpos _ _ _ h6⟩
      | ok s4 => simp only [hpos _ _ _ h4, if_true]; exact ⟨_, _, _, rfl, hpos _ _ _ h4⟩
    | DSMODE_IPV6 =>
      rw [wf_v6_ok_only env.cap sockets options rp s6 h6 (by simp [hds]) (by simp [hds])]
      cases h4 : env.cap options (ResolvedAddressMakeWild4 s6.port) with
      | crash => exact absurd h4 (hnc _ _)
      | err e4 => simp only [hpos _ _ _ h6, if_true]; exact ⟨_, _, _, rfl, hpos _ _ _ h6⟩
      | ok s4 => simp only [hpos _ _ _ h4, if_true]; exact ⟨_, _, _, rfl, hpos _ _ _ h4⟩
  · intro e6 s4 h6 h4
    rw [wf_v6_err env.cap sockets options rp e6 h6]
    simp only [h4, hpos _ _ _ h4, if_true]
  · intro e6 e4 h6 h4
    rw [wf_v6_err env.cap sockets options rp e6 h6]
    simp only [h4]
  · intro socks e t hout
    cases h6 : env.cap options (ResolvedAddressMakeWild6 rp) with
    | crash => exact absurd h6 (hnc _ _)
    | err e6 =>
      cases h4 : env.cap options (ResolvedAddressMakeWild4 rp) with
      | crash => exact absurd h4 (hnc _ _)
      | err e4 => exact ⟨e6, e4, rfl, rfl⟩
      | ok s4 =>
        rw [wf_v6_err env.cap sockets options rp e6 h6] at hout
        simp only [h4, hpos _ _ _ h4, if_true] at hout
        cases hout
    | ok s6 =>
      exfalso
      cases hds : s6.dsmode with
      | DSMODE_DUALSTACK =>
        rw [wf_v6_ok_dual env.cap sockets options rp s6 h6 (Or.inl hds)] at hout
        cases hout
      | DSMODE_IPV4 =>
        rw [wf_v6_ok_dual env.cap sockets options rp s6 h6 (Or.inr hds)] at hout
        cases hout
      | DSMODE_NONE =>
        rw [wf_v6_ok_only env.cap sockets options rp s6 h6 (by simp [hds]) (by simp [hds])] at hout
        cases h4 : env.cap options (ResolvedAddressMakeWild4 s6.port) with
        | crash => exact absurd h4 (hnc _ _)
        | err e4 =>
          rw [h4] at hout
          simp only [hpos _ _ _ h6, if_true] at hout
          cases hout
        | ok s4 =>
          rw [h4] at hout
          simp only [hpos _ _ _ h4, if_true] at hout
          cases hout
      | DSMODE_IPV6 =>
        rw [wf_v6_ok_only env.cap sockets options rp s6 h6 (by simp [hds]) (by simp [hds])] at hout
        cases h4 : env.cap options (ResolvedAddressMakeWild4 s6.port) with
        | crash => exact absurd h4 (hnc _ _)
        | err e4 =>
          rw [h4] at hout
          simp only [hpos _ _ _ h6, if_true] at hout
          cases hout
        | ok s4 =>
          rw [h4] at hout
          simp only [hpos _ _ _ h4, if_true] at hout
          cases hout

/-- C3: in the wildcard fallback path the IPv6 wildcard is always attempted
first (every non-crash outcome's bind trace starts with `::`); when the IPv6
socket reports dual-stack or IPv4 mode the operation returns its port
immediately with no IPv4 attempt (the trace is exactly the IPv6 wildcard);
otherwise the IPv4 wildcard is attempted at the IPv6 socket's assigned port
when the IPv6 bind succeeded (invariant I4: one port per bind request), and
at the originally requested port when the IPv6 bind failed. -/
theorem c3_wildcard_v6_first_port_threading (env : EnumEnv) (sockets : List ListenerSocket)
    (options : PosixTcpOptions) (rp : Nat)
    (hpath : env.has_ifaddrs = false ∨ options.expand_wildcard_addrs = false)
    (hpos : ∀ o a s, env.cap o a = .ok s → 0 < s.port)
    (hnc : ∀ o a, env.cap o a ≠ .crash) :
    (∀ socks r t, ListenerContainerAddWildcardAddresses env sockets options rp
        = .out socks r t → t.head? = some (ResolvedAddressMakeWild6 rp))
    ∧ (∀ s6, env.cap options (ResolvedAddressMakeWild6 rp) = .ok s6 →
        (s6.dsmode = DSMode.DSMODE_DUALSTACK ∨ s6.dsmode = DSMode.DSMODE_IPV4) →
        ListenerContainerAddWildcardAddresses env sockets options rp
          = .out (sockets ++ [s6]) (.ok s6.port) [ResolvedAddressMakeWild6 rp])
    ∧ (∀ s6, env.cap options (ResolvedAddressMakeWild6 rp) = .ok s6 →
        s6.dsmode ≠ DSMode.DSMODE_DUALSTACK → s6.dsmode ≠ DSMode.DSMODE_IPV4 →
        ∃ socks r, ListenerContainerAddWildcardAddresses env sockets options rp
          = .out socks r [ResolvedAddressMakeWild6 rp, ResolvedAddressMakeWild4 s6.port])
    ∧ (∀ e6, env.cap options (ResolvedAddressMakeWild6 rp) = .err e6 →
        ∃ socks r, ListenerContainerAddWildcardAddresses env sockets options rp
          = .out socks r [ResolvedAddressMakeWild6 rp, ResolvedAddressMakeWild4 rp]) := by
  rw [wildcard_fallback_path env sockets options rp hpath]
  refine ⟨?_, ?_, ?_, ?_⟩
  · intro socks r t hout
    cases h6 : env.cap options (ResolvedAddressMakeWild6 rp) with
    | crash => exact absurd h6 (hnc _ _)
    | err e6 =>
      rw [wf_v6_err env.cap sockets options rp e6 h6] at hout
      cases h4 : env.cap options (ResolvedAddressMakeWild4 rp) with
      | crash => exact absurd h4 (hnc _ _)
      | err e4 => rw [h4] at hout; cases hout; rfl
      | ok s4 =>
        rw [h4] at hout
        simp only [hpos _ _ _ h4, if_true] at hout
        cases hout; rfl
    | ok s6 =>
      cases hds : s6.dsmode with
      | DSMODE_DUALSTACK =>
        rw [wf_v6_ok_dual env.cap sockets options rp s6 h6 (Or.inl hds)] at hout
        cases hout; rfl
      | DSMODE_IPV4 =>
        rw [wf_v6_ok_dual env.cap sockets options rp s6 h6 (Or.inr hds)] at hout
        cases hout; rfl
      | DSMODE_NONE =>
        rw [wf_v6_ok_only env.cap sockets options rp s6 h6 (by simp [hds]) (by simp [hds])] at hout
        cases h4 : env.cap options (ResolvedAddressMakeWild4 s6.port) with
        | crash => exact absurd h4 (hnc _ _)
        | err e4 =>
          rw [h4] at hout
          simp only [hpos _ _ _ h6, if_true] at hout
          cases hout; rfl
        | ok s4 =>
          rw [h4] at hout
          simp only [hpos _ _ _ h4, if_true] at hout
          cases hout; rfl
      | DSMODE_IPV6 =>
        rw [wf_v6_ok_only env.cap sockets options rp s6 h6 (by simp [hds]) (by simp [hds])] at hout
        cases h4 : env.cap options (ResolvedAddressMakeWild4 s6.port) with
        | crash => exact absurd h4 (hnc _ _)
        | err e4 =>
          rw [h4] at hout
          simp only [hpos _ _ _ h6, if_true] at hout
          cases hout; rfl
        | ok s4 =>
          rw [h4] at hout
          simp only [hpos _ _ _ h4, if_true] at hout
          cases hout; rfl
  · intro s6 h6 hds
    exact wf_v6_ok_dual env.cap sockets options rp s6 h6 hds
  · intro s6 h6 hd1 hd2
    rw [wf_v6_ok_only env.cap sockets options rp s6 h6 hd1 hd2]
    cases h4 : env.cap options (ResolvedAddressMakeWild4 s6.port) with
    | crash => exact absurd h4 (hnc _ _)
    | err e4 => simp only [hpos _ _ _ h6, if_true]; exact ⟨_, _, rfl⟩
    | ok s4 => simp only [hpos _ _ _ h4, if_true]; exact ⟨_, _, rfl⟩
  · intro e6 h6
    rw [wf_v6_err env.cap sockets options rp e6 h6]
    cases h4 : env.cap options (ResolvedAddressMakeWild4 rp) with
    | crash => exact absurd h4 (hnc _ _)
    | err e4 => exact ⟨_, _, rfl⟩
    | ok s4 => simp only [hpos _ _ _ h4, if_true]; exact ⟨_, _, rfl⟩

/-- A throwaway-port environment whose oracles all succeed. -/
def portEnvOk : PortEnv :=
  { create_dual_stack := .ok (4, .DSMODE_DUALSTACK)
    bind_res := .ok ()
    getsockname_res := .ok (.v6 (List.replicate 16 0) 33000) }

/-- A binder capability that fails every bind. -/
def capAllFail : PosixTcpOptions → ResolvedAddress → Outcome ListenerSocket :=
  fun _ _ => .err { code := 9, message := "nope" }

/-- Enumeration environment without `ifaddrs`, failing every bind. -/
def enumEnvNoWild : EnumEnv :=
  { has_ifaddrs := false, cap := capAllFail, port_env := portEnvOk,
    getifaddrs_res := .ok [], ipv4_available := true }

theorem c2_wildcard_fallback_best_effort_witness :
    ListenerContainerAddWildcardAddresses enumEnvNoWild [] optsDefault 7
      = .out []
          (.error (FailedPreconditionError "Failed to add any wildcard listeners: nopenope"))
          [ResolvedAddressMakeWild6 7, ResolvedAddressMakeWild4 7] :=
  (c2_wildcard_fallback_best_effort enumEnvNoWild [] optsDefault 7 (Or.inl rfl)
    (fun _ _ _ h => nomatch h) (fun _ _ h => nomatch h)).2.2.1
    { code := 9, message := "nope" } { code := 9, message := "nope" } rfl rfl

/-- A binder capability that succeeds everywhere with a dual-stack socket at
port 90. -/
def capDual : PosixTcpOptions → ResolvedAddress → Outcome ListenerSocket :=
  fun _ a => .ok { fd := 3, addr := a, dsmode := .DSMODE_DUALSTACK,
                   zero_copy_enabled := false, port := 90 }

/-- Enumeration environment without `ifaddrs`, binding everything dual-stack
at port 90. -/
def enumEnvDual : EnumEnv :=
  { has_ifaddrs := false, cap := capDual, port_env := portEnvOk,
    getifaddrs_res := .ok [], ipv4_available := true }

/-- The socket `capDual` yields for the IPv6 wildcard at port 7. -/
def sockDual6W : ListenerSocket :=
  { fd := 3, addr := ResolvedAddressMakeWild6 7, dsmode := .DSMODE_DUALSTACK,
    zero_copy_enabled := false, port := 90 }

theorem c3_wildcard_v6_first_port_threading_witness :
    ListenerContainerAddWildcardAddresses enumEnvDual [] optsDefault 7
      = .out [sockDual6W] (.ok 90) [ResolvedAddressMakeWild6 7] :=
  (c3_wildcard_v6_first_port_threading enumEnvDual [] optsDefault 7 (Or.inl rfl)
    (fun _ _ s h => by cases (Outcome.ok.inj h); exact Nat.succ_pos 89)
    (fun _ _ h => nomatch h)).2.1 sockDual6W rfl (Or.inl rfl)

lemma add_all_loop_append (cap : PosixTcpOptions → ResolvedAddress → Outcome ListenerSocket)
    (v4a : Bool) (options : PosixTcpOptions) (rp : Nat) (l1 l2 : List IfAddr)
    (sockets : List ListenerSocket) (a : Nat) (n : Bool) (t : List ResolvedAddress) :
    AddAllLocalLoop cap v4a options rp (l1 ++ l2) sockets a n t
      = (match AddAllLocalLoop cap v4a options rp l1 sockets a n t with
         | .crash => .crash
         | .done s' a' n' (some e) t' => .done s' a' n' (some e) t'
         | .done s' a' n' none t' => AddAllLocalLoop cap v4a options rp l2 s' a' n' t') := by
  induction l1 generalizing sockets a n t with
  | nil => rfl
  | cons it rest ih =>
    simp only [List.cons_append, AddAllLocalLoop]
    cases haddr : it.ifa_addr with
    | none => exact ih sockets a n t
    | some raw =>
      by_cases hsf : SkipFamily v4a raw = true
      · simp only [hsf, if_true]
        exact ih sockets a n t
      · simp only [hsf, if_false, Bool.not_eq_true] at *
        simp only [hsf, Bool.false_eq_true, if_false]
        by_cases hll : (options.exclude_link_local_addresses
            && IsSockAddrLinkLocal (ResolvedAddressSetPort raw rp)) = true
        · simp only [hll, if_true]
          exact ih sockets a n t
        · simp only [hll, if_false, Bool.not_eq_true] at *
          simp only [hll, Bool.false_eq_true, if_false]
          by_cases hfind : ContainerFind sockets (ResolvedAddressSetPort raw rp) = true
          · simp only [hfind, if_true]
            exact ih sockets a n t
          · simp only [hfind, Bool.not_eq_true] at *
            simp only [hfind, Bool.false_eq_true, if_false]
            cases hcap : cap options (ResolvedAddressSetPort raw rp) with
            | crash => rfl
            | err st => rfl
            | ok s => exact ih (sockets ++ [s]) s.port false (t ++ [ResolvedAddressSetPort raw rp])

lemma add_all_loop_frame (cap : PosixTcpOptions → ResolvedAddress → Outcome ListenerSocket)
    (v4a : Bool) (options : PosixTcpOptions) (rp : Nat) :
    ∀ (entries : List IfAddr) (sockets : List ListenerSocket) (a : Nat) (n : Bool)
      (t : List ResolvedAddress) (s' : List ListenerSocket) (a' : Nat) (n' : Bool)
      (e' : Option AbslStatus) (t' : List ResolvedAddress),
      AddAllLocalLoop cap v4a options rp entries sockets a n t = .done s' a' n' e' t' →
      ∃ d, s' = sockets ++ d := by
  intro entries
  induction entries with
  | nil =>
    intro sockets a n t s' a' n' e' t' h
    cases h
    exact ⟨[], by simp⟩
  | cons it rest ih =>
    intro sockets a n t s' a' n' e' t' h
    cases haddr : it.ifa_addr with
    | none =>
      simp only [AddAllLocalLoop, haddr] at h
      exact ih sockets a n t s' a' n' e' t' h
    | some raw =>
      simp only [AddAllLocalLoop, haddr] at h
      by_cases hsf : SkipFamily v4a raw = true
      · rw [if_pos hsf] at h
        exact ih sockets a n t s' a' n' e' t' h
      · rw [if_neg hsf] at h
        by_cases hll : (options.exclude_link_local_addresses
            && IsSockAddrLinkLocal (ResolvedAddressSetPort raw rp)) = true
        · rw [if_pos hll] at h
          exact ih sockets a n t s' a' n' e' t' h
        · rw [if_neg hll] at h
          by_cases hfind : ContainerFind sockets (ResolvedAddressSetPort raw rp) = true
          · rw [if_pos hfind] at h
            exact ih sockets a n t s' a' n' e' t' h
          · rw [if_neg hfind] at h
            cases hcap : cap options (ResolvedAddressSetPort raw rp) with
            | crash => rw [hcap] at h; cases h
            | err st =>
              rw [hcap] at h
              cases h
              exact ⟨[], by simp⟩
            | ok s =>
              rw [hcap] at h
              obtain ⟨d, hd⟩ := ih (sockets ++ [s]) s.port false
                (t ++ [ResolvedAddressSetPort raw rp]) s' a' n' e' t' h
              exact ⟨[s] ++ d, by simp [hd]⟩

lemma add_all_fail_char (env : EnumEnv) (sockets0 : List ListenerSocket)
    (options : PosixTcpOptions) (rp : Nat) (pre post : List IfAddr) (x : IfAddr)
    (raw addr : ResolvedAddress) (s1 : List ListenerSocket) (a1 : Nat) (n1 : Bool)
    (t1 : List ResolvedAddress) (st : AbslStatus)
    (hif : env.has_ifaddrs = true) (hrp : rp ≠ 0)
    (hga : env.getifaddrs_res = .ok (pre ++ x :: post))
    (hpre : AddAllLocalLoop env.cap env.ipv4_available options rp pre sockets0 0 true []
      = .done s1 a1 n1 none t1)
    (hx : x.ifa_addr = some raw)
    (hsf : SkipFamily env.ipv4_available raw = false)
    (haddr : addr = ResolvedAddressSetPort raw rp)
    (hll : (options.exclude_link_local_addresses && IsSockAddrLinkLocal addr) = false)
    (hfind : ContainerFind s1 addr = false)
    (hcap : env.cap options addr = .err st) :
    ListenerContainerAddAllLocalAddresses env sockets0 options rp
      = .out s1
          (.error (FailedPreconditionError
            ("Failed to add listener: " ++ ResolvedAddressToString addr
              ++ " due to error: " ++ st.message)))
          (t1 ++ [addr]) := by
  subst haddr
  simp only [ListenerContainerAddAllLocalAddresses, hif, hrp, hga, if_false,
    Bool.true_eq_false, if_neg, ite_false]
  rw [add_all_loop_append, hpre]
  simp only [AddAllLocalLoop, hx, hsf, Bool.false_eq_true, if_false, hll, hfind, hcap]

/-- C4: during `ListenerContainerAddAllLocalAddresses`, the first bind
failure aborts the enumeration.  If the interface list splits as
`pre ++ x :: post`, the prefix `pre` is processed without failure (yielding
container `s1` and bind trace `t1`), and `x` survives every filter but its
bind fails with `st`, then the whole operation returns exactly that first
failure wrapped with the offending address's string form, and the final bind
trace is `t1 ++ [addr]` — no entry of `post` is ever handed to the binder. -/
theorem c4_enumeration_aborts_on_first_failure (env : EnumEnv)
    (sockets0 : List ListenerSocket) (options : PosixTcpOptions) (rp : Nat)
    (pre post : List IfAddr) (x : IfAddr) (raw addr : ResolvedAddress)
    (s1 : List ListenerSocket) (a1 : Nat) (n1 : Bool) (t1 : List ResolvedAddress)
    (st : AbslStatus)
    (hif : env.has_ifaddrs = true) (hrp : rp ≠ 0)
    (hga : env.getifaddrs_res = .ok (pre ++ x :: post))
    (hpre : AddAllLocalLoop env.cap env.ipv4_available options rp pre sockets0 0 true []
      = .done s1 a1 n1 none t1)
    (hx : x.ifa_addr = some raw)
    (hsf : SkipFamily env.ipv4_available raw = false)
    (haddr : addr = ResolvedAddressSetPort raw rp)
    (hll : (options.exclude_link_local_addresses && IsSockAddrLinkLocal addr) = false)
    (hfind : ContainerFind s1 addr = false)
    (hcap : env.cap options addr = .err st) :
    ListenerContainerAddAllLocalAddresses env sockets0 options rp
      = .out s1
          (.error (FailedPreconditionError
            ("Failed to add listener: " ++ ResolvedAddressToString addr
              ++ " due to error: " ++ st.message)))
          (t1 ++ [addr]) :=
  add_all_fail_char env sockets0 options rp pre post x raw addr s1 a1 n1 t1 st
    hif hrp hga hpre hx hsf haddr hll hfind hcap

/-- C10: when the enumeration aborts on a mid-list bind failure, the sockets
appended by the earlier iterations remain in the container unchanged — the
error return carries exactly the container `s1` reached after the clean
prefix, which extends the original container (no rollback). -/
theorem c10_no_rollback_on_failure (env : EnumEnv)
    (sockets0 : List ListenerSocket) (options : PosixTcpOptions) (rp : Nat)
    (pre post : List IfAddr) (x : IfAddr) (raw addr : ResolvedAddress)
    (s1 : List ListenerSocket) (a1 : Nat) (n1 : Bool) (t1 : List ResolvedAddress)
    (st : AbslStatus)
    (hif : env.has_ifaddrs = true) (hrp : rp ≠ 0)
    (hga : env.getifaddrs_res = .ok (pre ++ x :: post))
    (hpre : AddAllLocalLoop env.cap env.ipv4_available options rp pre sockets0 0 true []
      = .done s1 a1 n1 none t1)
    (hx : x.ifa_addr = some raw)
    (hsf : SkipFamily env.ipv4_available raw = false)
    (haddr : addr = ResolvedAddressSetPort raw rp)
    (hll : (options.exclude_link_local_addresses && IsSockAddrLinkLocal addr) = false)
    (hfind : ContainerFind s1 addr = false)
    (hcap : env.cap options addr = .err st) :
    (∃ e, ListenerContainerAddAllLocalAddresses env sockets0 options rp
        = .out s1 (.error e) (t1 ++ [addr]))
    ∧ ∃ d, s1 = sockets0 ++ d := by
  refine ⟨⟨_, add_all_fail_char env sockets0 options rp pre post x raw addr s1 a1 n1 t1 st
    hif hrp hga hpre hx hsf haddr hll hfind hcap⟩, ?_⟩
  exact add_all_loop_frame env.cap env.ipv4_available options rp pre sockets0 0 true []
    s1 a1 n1 none t1 hpre

/-- First interface address of the two-interface scenario, with the
requested port 7 already set. -/
def addrE1 : ResolvedAddress := .v4 [10, 0, 0, 1] 7

/-- Second interface address of the two-interface scenario, with the
requested port 7 already set. -/
def addrE2 : ResolvedAddress := .v4 [10, 0, 0, 2] 7

/-- A binder capability that binds `addrE1` (keeping the address, port 7)
and fails every other address. -/
def capFailSecond : PosixTcpOptions → ResolvedAddress → Outcome ListenerSocket :=
  fun _ a =>
    if a = addrE1 then
      .ok { fd := 7, addr := a, dsmode := .DSMODE_IPV4, zero_copy_enabled := false, port := 7 }
    else .err { code := 9, message := "boom" }

/-- The socket `capFailSecond` yields for `addrE1`. -/
def sockE1 : ListenerSocket :=
  { fd := 7, addr := addrE1, dsmode := .DSMODE_IPV4, zero_copy_enabled := false, port := 7 }

/-- Interface entry reporting `10.0.0.1`. -/
def entryE1 : IfAddr :=
  { ifa_name := some "eth0", ifa_addr := some (.v4 [10, 0, 0, 1] 0), ifa_flags := 0 }

/-- Interface entry reporting `10.0.0.2`. -/
def entryE2 : IfAddr :=
  { ifa_name := some "eth1", ifa_addr := some (.v4 [10, 0, 0, 2] 0), ifa_flags := 0 }

/-- Enumeration environment reporting two interfaces, whose second bind
fails. -/
def enumEnvFail2 : EnumEnv :=
  { has_ifaddrs := true, cap := capFailSecond, port_env := portEnvOk,
    getifaddrs_res := .ok [entryE1, entryE2], ipv4_available := true }

theorem c4_enumeration_aborts_on_first_failure_witness :
    ListenerContainerAddAllLocalAddresses enumEnvFail2 [] optsDefault 7
      = .out [sockE1]
          (.error (FailedPreconditionError
            "Failed to add listener: ipv4:10.0.0.2:7 due to error: boom"))
          [addrE1, addrE2] :=
  c4_enumeration_aborts_on_first_failure enumEnvFail2 [] optsDefault 7
    [entryE1] [] entryE2 (.v4 [10, 0, 0, 2] 0) addrE2 [sockE1] 7 false [addrE1]
    { code := 9, message := "boom" }
    rfl (by decide) rfl rfl rfl rfl rfl rfl (by decide) rfl

theorem c10_no_rollback_on_failure_witness :
    (∃ e, ListenerContainerAddAllLocalAddresses enumEnvFail2 [] optsDefault 7
        = .out [sockE1] (.error e) [addrE1, addrE2])
    ∧ ∃ d, [sockE1] = ([] : List ListenerSocket) ++ d :=
  c10_no_rollback_on_failure enumEnvFail2 [] optsDefault 7
    [entryE1] [] entryE2 (.v4 [10, 0, 0, 2] 0) addrE2 [sockE1] 7 false [addrE1]
    { code := 9, message := "boom" }
    rfl (by decide) rfl rfl rfl rfl rfl rfl (by decide) rfl

lemma add_all_loop_all_skipped (cap : PosixTcpOptions → ResolvedAddress → Outcome ListenerSocket)
    (v4a : Bool) (options : PosixTcpOptions) (rp : Nat) :
    ∀ (entries : List IfAddr) (sockets : List ListenerSocket) (a : Nat) (n : Bool)
      (t : List ResolvedAddress),
      (∀ it ∈ entries, SkippedEntry sockets v4a options rp it = true) →
      AddAllLocalLoop cap v4a options rp entries sockets a n t = .done sockets a n none t := by
  intro entries
  induction entries with
  | nil => intro sockets a n t _; rfl
  | cons it rest ih =>
    intro sockets a n t hall
    have hit := hall it (List.mem_cons_self it rest)
    have hrest : ∀ y ∈ rest, SkippedEntry sockets v4a options rp y = true :=
      fun y hy => hall y (List.mem_cons_of_mem _ hy)
    cases haddr : it.ifa_addr with
    | none =>
      simp only [AddAllLocalLoop, haddr]
      exact ih sockets a n t hrest
    | some raw =>
      simp only [SkippedEntry, haddr, Bool.or_eq_true] at hit
      simp only [AddAllLocalLoop, haddr]
      by_cases hsf : SkipFamily v4a raw = true
      · simp only [hsf, if_true]
        exact ih sockets a n t hrest
      · by_cases hll : (options.exclude_link_local_addresses
            && IsSockAddrLinkLocal (ResolvedAddressSetPort raw rp)) = true
        · simp only [if_neg hsf, hll, if_true]
          exact ih sockets a n t hrest
        · have hfind : ContainerFind sockets (ResolvedAddressSetPort raw rp) = true := by
            rcases hit with (h | h) | h
            · exact absurd h hsf
            · exact absurd h hll
            · exact h
          simp only [if_neg hsf, if_neg hll, hfind, if_true]
          exact ih sockets a n t hrest

/-- C8: if `ListenerContainerAddAllLocalAddresses` walks an interface list in
which every entry is skipped (null address, family filtering, IPv4
availability, link-local exclusion, or duplicate suppression) so that no
bind failure occurs and nothing is bound, it returns the "No local
addresses" failure rather than success, leaving the container unchanged. -/
theorem c8_no_local_addresses_failure (env : EnumEnv) (sockets : List ListenerSocket)
    (options : PosixTcpOptions) (rp : Nat) (entries : List IfAddr)
    (hif : env.has_ifaddrs = true) (hrp : rp ≠ 0)
    (hga : env.getifaddrs_res = .ok entries)
    (hall : ∀ it ∈ entries, SkippedEntry sockets env.ipv4_available options rp it = true) :
    ListenerContainerAddAllLocalAddresses env sockets options rp
      = .out sockets (.error (FailedPreconditionError "No local addresses")) [] := by
  simp only [ListenerContainerAddAllLocalAddresses, hif, hrp, hga, if_false,
    Bool.true_eq_false, ite_false]
  rw [add_all_loop_all_skipped env.cap env.ipv4_available options rp entries sockets 0 true [] hall]
  rfl

/-- An interface entry with a non-IP family (skipped by the family filter). -/
def entryOther : IfAddr :=
  { ifa_name := some "ll0", ifa_addr := some (.other 17), ifa_flags := 0 }

/-- Enumeration environment whose interface list holds only a non-IP
entry. -/
def enumEnvSkipAll : EnumEnv :=
  { has_ifaddrs := true, cap := capAllFail, port_env := portEnvOk,
    getifaddrs_res := .ok [entryOther], ipv4_available := true }

theorem c8_no_local_addresses_failure_witness :
    ListenerContainerAddAllLocalAddresses enumEnvSkipAll [] optsDefault 7
      = .out [] (.error (FailedPreconditionError "No local addresses")) [] :=
  c8_no_local_addresses_failure enumEnvSkipAll [] optsDefault 7 [entryOther]
    rfl (by decide) rfl (by decide)

lemma container_find_append (l1 l2 : List ListenerSocket) (a : ResolvedAddress) :
    ContainerFind (l1 ++ l2) a = (ContainerFind l1 a || ContainerFind l2 a) := by
  simp [ContainerFind, List.any_append]

lemma has_dup_append_false (l : List ListenerSocket) (s : ListenerSocket)
    (hd : HasDupAddrs l = false) (hf : ContainerFind l s.addr = false) :
    HasDupAddrs (l ++ [s]) = false := by
  induction l with
  | nil => rfl
  | cons x l ih =>
    simp only [HasDupAddrs, Bool.or_eq_false_iff] at hd
    simp only [ContainerFind, List.any_cons, Bool.or_eq_false_iff, beq_eq_false_iff_ne] at hf
    simp only [List.cons_append, HasDupAddrs, List.append_eq, Bool.or_eq_false_iff]
    refine ⟨?_, ih hd.2 (by simpa [ContainerFind] using hf.2)⟩
    rw [container_find_append]
    simp only [Bool.or_eq_false_iff]
    exact ⟨hd.1, by simp [ContainerFind, beq_eq_false_iff_ne]; exact Ne.symm hf.1⟩

lemma add_all_loop_nodup (cap : PosixTcpOptions → ResolvedAddress → Outcome ListenerSocket)
    (v4a : Bool) (options : PosixTcpOptions) (rp : Nat)
    (hcap : ∀ o a s, cap o a = .ok s → s.addr = a) :
    ∀ (entries : List IfAddr) (sockets : List ListenerSocket) (a : Nat) (n : Bool)
      (t : List ResolvedAddress) (s' : List ListenerSocket) (a' : Nat) (n' : Bool)
      (e' : Option AbslStatus) (t' : List ResolvedAddress),
      HasDupAddrs sockets = false →
      AddAllLocalLoop cap v4a options rp entries sockets a n t = .done s' a' n' e' t' →
      HasDupAddrs s' = false := by
  intro entries
  induction entries with
  | nil =>
    intro sockets a n t s' a' n' e' t' hd h
    cases h
    exact hd
  | cons it rest ih =>
    intro sockets a n t s' a' n' e' t' hd h
    cases haddr : it.ifa_addr with
    | none =>
      simp only [AddAllLocalLoop, haddr] at h
      exact ih sockets a n t s' a' n' e' t' hd h
    | some raw =>
      simp only [AddAllLocalLoop, haddr] at h
      by_cases hsf : SkipFamily v4a raw = true
      · rw [if_pos hsf] at h
        exact ih sockets a n t s' a' n' e' t' hd h
      · rw [if_neg hsf] at h
        by_cases hll : (options.exclude_link_local_addresses
            && IsSockAddrLinkLocal (ResolvedAddressSetPort raw rp)) = true
        · rw [if_pos hll] at h
          exact ih sockets a n t s' a' n' e' t' hd h
        · rw [if_neg hll] at h
          by_cases hfind : ContainerFind sockets (ResolvedAddressSetPort raw rp) = true
          · rw [if_pos hfind] at h
            exact ih sockets a n t s' a' n' e' t' hd h
          · rw [if_neg hfind] at h
            cases hc : cap options (ResolvedAddressSetPort raw rp) with
            | crash => rw [hc] at h; cases h
            | err st =>
              rw [hc] at h
              cases h
              exact hd
            | ok s =>
              rw [hc] at h
              have hnew : HasDupAddrs (sockets ++ [s]) = false :=
                has_dup_append_false sockets s hd
                  (by rw [hcap _ _ _ hc]; exact Bool.eq_false_iff.mpr hfind)
              exact ih (sockets ++ [s]) s.port false
                (t ++ [ResolvedAddressSetPort raw rp]) s' a' n' e' t' hnew h

lemma add_all_loop_skip_dup (cap : PosixTcpOptions → ResolvedAddress → Outcome ListenerSocket)
    (v4a : Bool) (options : PosixTcpOptions) (rp : Nat) (it : IfAddr) (rest : List IfAddr)
    (raw : ResolvedAddress) (sockets : List ListenerSocket) (a : Nat) (n : Bool)
    (t : List ResolvedAddress)
    (hx : it.ifa_addr = some raw)
    (hsf : SkipFamily v4a raw = false)
    (hll : (options.exclude_link_local_addresses
      && IsSockAddrLinkLocal (ResolvedAddressSetPort raw rp)) = false)
    (hfind : ContainerFind sockets (ResolvedAddressSetPort raw rp) = true) :
    AddAllLocalLoop cap v4a options rp (it :: rest) sockets a n t
      = AddAllLocalLoop cap v4a options rp rest sockets a n t := by
  simp only [AddAllLocalLoop, hx, hsf, Bool.false_eq_true, if_false, hll, hfind, if_true]

/-- The 16 bytes of the v4-mapped IPv6 address `::ffff:10.0.0.1`. -/
def mappedBytesE : List Nat :=
  [0, 0, 0, 0, 0, 0, 0, 0, 0, 0, 0xff, 0xff, 10, 0, 0, 1]

/-- A container entry already bound to plain IPv4 `10.0.0.1:80`. -/
def sockDup0 : ListenerSocket :=
  { fd := 5, addr := .v4 [10, 0, 0, 1] 80, dsmode := .DSMODE_IPV4,
    zero_copy_enabled := false, port := 80 }

/-- A binder environment whose factory reports `DSMODE_IPV4` (no usable IPv6
stack) and whose preparation succeeds at port 80: on a v4-mapped address the
single-address binder then rewrites the stored address to plain IPv4. -/
def binderEnvV4Mapped : BinderEnv :=
  { create_dual_stack := .ok (6, .DSMODE_IPV4),
    prep := { prepEnvOk with getsockname_res := .ok (.v4 [10, 0, 0, 1] 80) } }

/-- The real single-address binder run under `binderEnvV4Mapped`, used as
the enumeration capability. -/
def capRewrites : PosixTcpOptions → ResolvedAddress → Outcome ListenerSocket :=
  fun o a => CreateAndPrepareListenerSocket binderEnvV4Mapped o a

/-- Interface entry reporting the v4-mapped address `::ffff:10.0.0.1`. -/
def entryMapped : IfAddr :=
  { ifa_name := some "eth2", ifa_addr := some (.v6 mappedBytesE 0), ifa_flags := 0 }

/-- Enumeration environment with one v4-mapped IPv6 interface entry, bound
through `capRewrites`. -/
def enumEnvDupCase : EnumEnv :=
  { has_ifaddrs := true, cap := capRewrites, port_env := portEnvOk,
    getifaddrs_res := .ok [entryMapped], ipv4_available := true }

/-- The socket `capRewrites` produces for `::ffff:10.0.0.1` port 80: its
stored address has been rewritten to plain IPv4 `10.0.0.1:80`. -/
def sockDupNew : ListenerSocket :=
  { fd := 6, addr := .v4 [10, 0, 0, 1] 80, dsmode := .DSMODE_IPV4,
    zero_copy_enabled := true, port := 80 }

/-- C7 counterexample: the duplicate filter compares the interface address
as enumerated, but `CreateAndPrepareListenerSocket` may rewrite a v4-mapped
IPv6 address to its plain-IPv4 form before the socket is appended (lines
219-224).  Starting from a container already holding `10.0.0.1:80`, the
interface address `::ffff:10.0.0.1` passes the duplicate check (its byte
content differs), yet the appended socket stores `10.0.0.1:80` — the final
container has two byte-identical resolved addresses, refuting invariant I2
as stated. -/
theorem c7_dedup_counterexample :
    ListenerContainerAddAllLocalAddresses enumEnvDupCase [sockDup0] optsDefault 80
      = .out [sockDup0, sockDupNew] (.ok 80) [.v6 mappedBytesE 80]
    ∧ HasDupAddrs [sockDup0, sockDupNew] = true :=
  ⟨rfl, rfl⟩

/-- C7 (amended): an interface address whose byte content already equals an
entry of the container is skipped without error — the loop iteration leaves
container, port, flag and trace untouched; and provided the single-address
binder returns sockets whose stored address equals the address it was asked
to bind (i.e. no v4-mapped rewrite occurs), a container without
byte-identical duplicate addresses never acquires any through
`ListenerContainerAddAllLocalAddresses`. -/
theorem c7_dedup_amended (env : EnumEnv) (options : PosixTcpOptions) (rp : Nat)
    (hcap : ∀ o a s, env.cap o a = .ok s → s.addr = a) :
    (∀ (it : IfAddr) (rest : List IfAddr) (raw : ResolvedAddress)
        (sockets : List ListenerSocket) (a : Nat) (n : Bool) (t : List ResolvedAddress),
        it.ifa_addr = some raw →
        SkipFamily env.ipv4_available raw = false →
        (options.exclude_link_local_addresses
          && IsSockAddrLinkLocal (ResolvedAddressSetPort raw rp)) = false →
        ContainerFind sockets (ResolvedAddressSetPort raw rp) = true →
        AddAllLocalLoop env.cap env.ipv4_available options rp (it :: rest) sockets a n t
          = AddAllLocalLoop env.cap env.ipv4_available options rp rest sockets a n t)
    ∧ (∀ (sockets s' : List ListenerSocket) (r : Except AbslStatus Nat)
        (t' : List ResolvedAddress),
        HasDupAddrs sockets = false →
        ListenerContainerAddAllLocalAddresses env sockets options rp = .out s' r t' →
        HasDupAddrs s' = false) := by
  constructor
  · intro it rest raw sockets a n t hx hsf hll hfind
    exact add_all_loop_skip_dup env.cap env.ipv4_available options rp it rest raw
      sockets a n t hx hsf hll hfind
  · intro sockets s' r t' hd hout
    by_cases hif : env.has_ifaddrs = false
    · simp only [ListenerContainerAddAllLocalAddresses, hif, if_pos] at hout
      cases hout
    · simp only [ListenerContainerAddAllLocalAddresses, if_neg hif] at hout
      cases hport : (if rp = 0 then GetUnusedPort env.port_env else .ok rp) with
      | error st =>
        simp only [hport] at hout
        cases hout
        exact hd
      | ok port =>
        simp only [hport] at hout
        cases hga : env.getifaddrs_res with
        | error m =>
          simp only [hga] at hout
          cases hout
          exact hd
        | ok entries =>
          simp only [hga] at hout
          cases hloop : AddAllLocalLoop env.cap env.ipv4_available options port entries
              sockets 0 true [] with
          | crash => simp only [hloop] at hout; cases hout
          | done s2 a2 n2 e2 t2 =>
            simp only [hloop] at hout
            have hnd := add_all_loop_nodup env.cap env.ipv4_available options port hcap
              entries sockets 0 true [] s2 a2 n2 e2 t2 hd hloop
            cases e2 with
            | some e =>
              cases hout
              exact hnd
            | none =>
              cases n2 with
              | true => simp only [if_pos] at hout; cases hout; exact hnd
              | false => simp only [Bool.false_eq_true, if_neg] at hout; cases hout; exact hnd

lemma capFailSecond_preserves_addr :
    ∀ (o : PosixTcpOptions) (a : ResolvedAddress) (s : ListenerSocket),
      capFailSecond o a = .ok s → s.addr = a := by
  intro o a s h
  by_cases ha : a = addrE1
  · simp only [capFailSecond, if_pos ha] at h
    cases (Outcome.ok.inj h)
    rfl
  · simp only [capFailSecond, if_neg ha] at h
    cases h

theorem c7_dedup_amended_witness :
    HasDupAddrs [sockE1] = false
    ∧ AddAllLocalLoop capFailSecond true optsDefault 7 [entryE1] [sockE1] 0 true []
        = AddAllLocalLoop capFailSecond true optsDefault 7 [] [sockE1] 0 true [] :=
  ⟨(c7_dedup_amended enumEnvFail2 optsDefault 7 capFailSecond_preserves_addr).2
      [] [sockE1]
      (.error (FailedPreconditionError
        "Failed to add listener: ipv4:10.0.0.2:7 due to error: boom"))
      [addrE1, addrE2] rfl rfl,
   (c7_dedup_amended enumEnvFail2 optsDefault 7 capFailSecond_preserves_addr).1
      entryE1 [] (.v4 [10, 0, 0, 1] 0) [sockE1] 0 true [] rfl rfl rfl rfl⟩

lemma natToBytesBE4_mask : natToBytesBE4 v6LinkLocalMask = [255, 192, 0, 0] := by decide

lemma nat_and_255_lt : ∀ x < 256, x &&& 255 = x := by decide

/-- C9: `IsSockAddrLinkLocal` is true for an IPv4 address iff its first two
bytes are `169.254`; true for an IPv6 address (with bytes in range) iff the
first byte is `0xfe` and the second byte masked with `0xc0` is `0x80` — the
`fe80::/10` prefix, i.e. the first 32-bit word compared after masking off
its low 22 bits; false for every other address family; and in particular
true on `169.254.1.1` and `fe80::1`, false on `10.0.0.1` and `2001:db8::1`. -/
theorem c9_is_sock_addr_link_local_spec :
    (∀ (b : List Nat) (p : Nat), b.length = 4 →
        (IsSockAddrLinkLocal (.v4 b p) = true ↔ b.getD 0 0 = 169 ∧ b.getD 1 0 = 254))
    ∧ (∀ (b : List Nat) (p : Nat), b.length = 16 → (∀ x ∈ b, x < 256) →
        (IsSockAddrLinkLocal (.v6 b p) = true
          ↔ b.getD 0 0 = 0xfe ∧ (b.getD 1 0) &&& 0xc0 = 0x80))
    ∧ (∀ path, IsSockAddrLinkLocal (.unixAddr path) = false)
    ∧ (∀ c p, IsSockAddrLinkLocal (.vsockAddr c p) = false)
    ∧ (∀ f, IsSockAddrLinkLocal (.other f) = false)
    ∧ IsSockAddrLinkLocal (.v4 [169, 254, 1, 1] 0) = true
    ∧ IsSockAddrLinkLocal
        (.v6 [0xfe, 0x80, 0, 0, 0, 0, 0, 0, 0, 0, 0, 0, 0, 0, 0, 1] 0) = true
    ∧ IsSockAddrLinkLocal (.v4 [10, 0, 0, 1] 0) = false
    ∧ IsSockAddrLinkLocal
        (.v6 [0x20, 0x01, 0x0d, 0xb8, 0, 0, 0, 0, 0, 0, 0, 0, 0, 0, 0, 1] 0) = false := by
  refine ⟨?_, ?_, fun _ => rfl, fun _ _ => rfl, fun _ => rfl,
    by decide, by decide, by decide, by decide⟩
  · intro b p hlen
    rcases b with _ | ⟨b0, _ | ⟨b1, b⟩⟩ <;> simp_all [IsSockAddrLinkLocal, v4LinkLocalBytes]
  · intro b p hlen hrange
    rcases b with _ | ⟨b0, _ | ⟨b1, _ | ⟨b2, _ | ⟨b3, b⟩⟩⟩⟩ <;>
      simp_all [IsSockAddrLinkLocal, v6LinkLocalBytes, natToBytesBE4_mask]
    exact fun _ => by rw [nat_and_255_lt b0 hrange.1]

theorem c9_is_sock_addr_link_local_spec_witness :
    IsSockAddrLinkLocal (.v4 [169, 254, 1, 1] 0) = true
    ∧ IsSockAddrLinkLocal
        (.v6 [0xfe, 0x80, 0, 0, 0, 0, 0, 0, 0, 0, 0, 0, 0, 0, 0, 1] 0) = true :=
  ⟨(c9_is_sock_addr_link_local_spec.1 [169, 254, 1, 1] 0 rfl).mpr (by decide),
   (c9_is_sock_addr_link_local_spec.2.1
      [0xfe, 0x80, 0, 0, 0, 0, 0, 0, 0, 0, 0, 0, 0, 0, 0, 1] 0 rfl (by decide)).mpr
     (by decide)⟩

end GrpcListenerUtils
